import Mathlib

/-!
# AthensBuses — verification of the decoding core

Shallow embedding of the repository's two decoding cores:

* the contactless smart-card decoders `parseDESFireVersion` and
  `parseAthenaTicketData` from `src/app/(tabs)/ticket.tsx`, and
* the transit API response decoder (`decompressGzip`, `parseTupleFormat`,
  `fetchAPI`, `getClosestStops`) from the OASTH client module.

JavaScript numbers that the source only ever uses as non-negative integers
(byte values, timestamps, counters) are modelled as `Nat`; the one place the
source's 32-bit shift semantics can go negative (`1 << p` in the storage-size
decoder) is modelled as `Int` with the JS 32-bit truncation made explicit.
JS builtins (`JSON.parse`, `pako.ungzip`, `TextDecoder`, `Math.sin`, …) are
either modelled as explicit Lean functions or passed in as function arguments,
as noted at each definition.
-/

namespace AthensBuses

/-! ## ByteCodec helpers -/

/-- Unsigned little-endian 32-bit assembly from the first four entries of a
byte list, mirroring `(b[0] & 0xff) | ((b[1] & 0xff) << 8) | ... >>> 0` in the
source (`ticket.tsx`).  The `% 256` reflects the `& 0xff` masks. -/
def le32 (l : List ℕ) : ℕ :=
  (l.getD 0 0 % 256) + (l.getD 1 0 % 256) * 256 +
    (l.getD 2 0 % 256) * 65536 + (l.getD 3 0 % 256) * 16777216

/-- Lowercase hexadecimal digits of `n`, as produced by JS
`n.toString(16)` for a non-negative integer. -/
def hexStr (n : ℕ) : String :=
  String.mk (Nat.toDigits 16 n)

/-- JS `b.toString(16).padStart(2, "0")` for a byte value. -/
def hexByte (b : ℕ) : String :=
  (if b < 16 then "0" else "") ++ hexStr b

/-- JS `String.prototype.trim()` restricted to ASCII whitespace (the only
whitespace the decoded payloads contain). -/
def jsTrim (s : String) : String :=
  String.mk (((s.data.dropWhile Char.isWhitespace).reverse.dropWhile Char.isWhitespace).reverse)

/-- The effect of `.replace(/(.{4})/g, "$1 ")`: a space is appended after
every complete 4-character chunk, scanning left to right; a trailing chunk of
fewer than 4 characters is left untouched. -/
def group4 : List Char → List Char
  | a :: b :: c :: d :: rest => a :: b :: c :: d :: ' ' :: group4 rest
  | rest => rest

/-! ## CardVersionDecoder (`parseDESFireVersion`, ticket.tsx lines 65–124) -/

structure VersionInfo where
  cardType : String
  manufacturer : String
  capacity : String
  productionDate : String
deriving DecidableEq, Repr

/-- JS `1 << p` on a 32-bit signed integer: the shift count is taken mod 32
and a shift by 31 produces the negative value `-2^31`. -/
def jsShl1 (p : ℕ) : Int :=
  let q := p % 32
  if q = 31 then -(2 ^ 31) else (2 : Int) ^ q

/-- The production-date portion of `parseDESFireVersion` (lines 113–121):
bytes 26/27 are week and two-digit year; the field is produced only when
`prodWeek > 0 && prodWeek <= 53 && prodYear > 0`. -/
def prodDateOf (versionData : List ℕ) : String :=
  if 28 ≤ versionData.length then
    let prodWeek := versionData.getD 26 0
    let prodYear := versionData.getD 27 0
    if 0 < prodWeek ∧ prodWeek ≤ 53 ∧ 0 < prodYear then
      let year := if prodYear < 50 then 2000 + prodYear else 1900 + prodYear
      "Week " ++ toString prodWeek ++ ", " ++ toString year
    else ""
  else ""

/-- `parseDESFireVersion` from ticket.tsx: decodes the DESFire GetVersion
byte block into card type, manufacturer, capacity and production date. -/
def parseDESFireVersion (versionData : List ℕ) : VersionInfo :=
  if 7 ≤ versionData.length then
    let hwVendor := versionData.getD 0 0
    let hwType := versionData.getD 1 0
    let hwSubType := versionData.getD 2 0
    let hwMajor := versionData.getD 3 0
    let hwMinor := versionData.getD 4 0
    let hwStorageSize := versionData.getD 5 0
    let manufacturer := if hwVendor = 0x04 then "NXP Semiconductors" else "Unknown"
    let cardType :=
      if hwType = 0x01 then
        if hwSubType = 0x01 then "DESFire EV1"
        else if hwSubType = 0x02 then "DESFire EV2"
        else if hwSubType = 0x03 then "DESFire EV3"
        else "DESFire (" ++ toString hwMajor ++ "." ++ toString hwMinor ++ ")"
      else "DESFire"
    let storagePower := hwStorageSize / 2
    let storageBytes := jsShl1 storagePower
    let capacity :=
      if 1024 ≤ storageBytes then toString (storageBytes / 1024) ++ " KB"
      else toString storageBytes ++ " bytes"
    { cardType := cardType, manufacturer := manufacturer, capacity := capacity
      productionDate := prodDateOf versionData }
  else
    { cardType := "DESFire", manufacturer := "Unknown", capacity := "Unknown"
      productionDate := prodDateOf versionData }

/-! ## CardFileDecoder (`parseAthenaTicketData`, ticket.tsx lines 141–490)

The decoder's date rendering (`formatTimestamp`) converts a Unix instant to a
local-time string; local time is not representable in a pure embedding, so
`expiryDate`/`loadDate` are modelled by the Unix instants that the source
formats (`none` models the `null` the source leaves when no timestamp passes
the plausibility checks).  `Date.now()` is the explicit `now` argument and the
local-calendar "end of current month at 23:59:59" computation for period
passes is the explicit `endOfMonth` argument. -/

structure ProductInfo where
  name : String
  trips : ℕ
deriving DecidableEq, Repr

/-- The `number | "unlimited" | "encrypted"` union of `tripsRemaining`. -/
inductive Trips where
  | num (n : ℕ)
  | unlimited
  | encrypted
deriving DecidableEq, Repr

structure TicketInfo where
  cardId : String
  uid : String
  cardType : String
  manufacturer : String
  capacity : String
  productionDate : String
  tripsRemaining : Trips
  activeProduct : Option ProductInfo
  expiredProduct : Option ProductInfo
  userCategory : String
  isActive : Bool
  remainingTimeSeconds : ℕ
  expiryInstant : Option ℕ
  loadInstant : Option ℕ
  isEncrypted : Bool
  applicationId : String
deriving DecidableEq, Repr

/-- The `{ [fileId: number]: number[] }` map handed to the decoder. -/
abbrev FileData : Type := ℕ → Option (List ℕ)

/-- Build a `FileData` from an association list (for concrete inputs). -/
def mkFileData (l : List (ℕ × List ℕ)) : FileData :=
  fun i => (l.find? (fun p => p.1 = i)).map Prod.snd

/-- The `USER_CATEGORIES` lookup table (ticket.tsx lines 127–138). -/
def USER_CATEGORIES : List (ℕ × String) :=
  [(0x00, "Adult"), (0x01, "Adult"), (0x10, "Student"), (0x20, "Senior"),
   (0x30, "Adult"), (0x40, "Child"), (0x50, "Disabled"), (0x60, "Military"),
   (0x70, "Unemployed"), (0x80, "University student")]

/-- `USER_CATEGORIES[b]` as an optional lookup (every stored label is a
non-empty, hence truthy, string, so `|| fallback` fires exactly on a missing
key). -/
def userCategory? (b : ℕ) : Option String :=
  (USER_CATEGORIES.find? (fun p => p.1 = b)).map Prod.snd

/-- FILE 2 step (lines 195–220): card id from bytes 12–16 behind the fixed
`"3001 0100 "` prefix, then `toUpperCase`, `.replace(/(.{4})/g, "$1 ")` and
`.trim()`; user category from byte 9. -/
def stepFile2 (file2? : Option (List ℕ)) (st : TicketInfo) : TicketInfo :=
  match file2? with
  | none => st
  | some file2 =>
    if 20 ≤ file2.length then
      let cardBytes := (file2.drop 12).take 5
      let cardNum := "3001 0100 " ++ String.join (cardBytes.map hexByte)
      let cardId := jsTrim (String.mk (group4 (cardNum.data.map Char.toUpper)))
      let categoryByte := file2.getD 9 0
      { st with cardId := cardId
                userCategory := (userCategory? categoryByte).getD "Regular" }
    else st

/-- The user-category override computed by the FILE 4 block (lines 231–251)
from the current category: when the personalization marker holds, byte 9 can
re-derive the category, and a remaining "Adult" on a `PKP`-typed card becomes
"University student". -/
def file4Category (file4 : List ℕ) (cur : String) : String :=
  let typeCode := String.mk [Char.ofNat (file4.getD 4 0), Char.ofNat (file4.getD 5 0),
    Char.ofNat (file4.getD 6 0)]
  if typeCode = "PKP" ∨ file4.getD 3 0 = 0x37 then
    let persCategory := file4.getD 9 0
    let c1 :=
      if persCategory ≠ 0 then
        match userCategory? persCategory with
        | some c => c
        | none => cur
      else cur
    if c1 = "Adult" ∧ typeCode = "PKP" then "University student" else c1
  else cur

/-- FILE 4 step (lines 226–252): personalization override of the user
category — the block reads and writes only `userCategory`.
`String.fromCharCode` on byte values is `Char.ofNat`. -/
def stepFile4 (file4? : Option (List ℕ)) (st : TicketInfo) : TicketInfo :=
  match file4? with
  | none => st
  | some file4 =>
    if 10 ≤ file4.length then
      { st with userCategory := file4Category file4 st.userCategory }
    else st

/-- FILE 12 step (lines 254–274): remaining trips as an unsigned
little-endian 32-bit integer when at least 4 bytes are present. -/
def stepFile12 (file12? : Option (List ℕ)) (st : TicketInfo) : TicketInfo :=
  match file12? with
  | none => st
  | some file12 =>
    if 4 ≤ file12.length then { st with tripsRemaining := .num (le32 file12) }
    else st

/-- The period-pass condition of the first product record (lines 289–295):
trip-count byte 0 with a non-`0xFF` first byte, or type code `0x31`. -/
def periodCond16 (file16 : List ℕ) : Prop :=
  (file16.getD 16 0 = 0 ∧ file16.getD 0 0 ≠ 0xff) ∨ file16.getD 1 0 = 0x31

instance (file16 : List ℕ) : Decidable (periodCond16 file16) := by
  unfold periodCond16; infer_instance

/-- The active product resulting from the first product record
(lines 287–311): "Monthly" on the period condition, a count product on a
positive trip-count byte, otherwise unchanged. -/
def file16Active (file16 : List ℕ) (cur : Option ProductInfo) : Option ProductInfo :=
  if periodCond16 file16 then some (ProductInfo.mk "Monthly" 0)
  else if 0 < file16.getD 16 0 then
    some (ProductInfo.mk (toString (file16.getD 16 0) ++ " trips") (file16.getD 16 0))
  else cur

/-- The expired product resulting from the second product record
(lines 313–332), same shape at offsets 32/33/48. -/
def file16Expired (file16 : List ℕ) (cur : Option ProductInfo) : Option ProductInfo :=
  if (file16.getD 48 0 = 0 ∧ file16.getD 32 0 ≠ 0xff) ∨ file16.getD 33 0 = 0x31 then
    some (ProductInfo.mk "Monthly" 0)
  else if 0 < file16.getD 48 0 then
    some (ProductInfo.mk (toString (file16.getD 48 0) ++ " trips") (file16.getD 48 0))
  else cur

/-- FILE 16 products step (lines 276–346): first and second 32-byte product
record, the `"unlimited"` override on a period pass, and the trips fallback
(lines 334–345) from the resulting active product when the accumulated trips
value is still the number 0. -/
def stepFile16 (file16? : Option (List ℕ)) (st : TicketInfo) : TicketInfo :=
  match file16? with
  | none => st
  | some file16 =>
    if 32 ≤ file16.length then
      let newActive := file16Active file16 st.activeProduct
      let newExpired :=
        if 64 ≤ file16.length then file16Expired file16 st.expiredProduct
        else st.expiredProduct
      let t := if periodCond16 file16 then Trips.unlimited else st.tripsRemaining
      let newTrips :=
        match newActive with
        | some p => if t = .num 0 ∧ p.trips ≠ 0 then Trips.num p.trips else t
        | none => t
      { st with activeProduct := newActive, expiredProduct := newExpired
                tripsRemaining := newTrips }
    else st

/-- The dual-epoch timestamp heuristic (lines 381–391 for the load instant,
437–465 for the expiry instant): accept `t` as a Unix instant when
`1420070400 < t < 2208988800`; otherwise, for positive `t`, accept
`852076800 + t` (the 1997-01-01 card-scheme epoch) against the same window;
otherwise no instant. -/
def dualEpoch (t : ℕ) : Option ℕ :=
  if 1420070400 < t ∧ t < 2208988800 then some t
  else if 0 < t then
    if 1420070400 < 852076800 + t ∧ 852076800 + t < 2208988800 then some (852076800 + t)
    else none
  else none

/-- FILE 16 timestamps step (lines 357–467): load instant from bytes 4–7;
period passes (`prodType === 0x31`) expire at the local end of month, other
products take their expiry from bytes 8–11 via the dual-epoch heuristic;
activity and remaining seconds compare against `now`. -/
def stepTimestamps (now : ℕ) (endOfMonth : ℕ → ℕ) (file16? : Option (List ℕ))
    (st : TicketInfo) : TicketInfo :=
  match file16? with
  | none => st
  | some file16 =>
    if 12 ≤ file16.length then
      let loadRaw := le32 ((file16.drop 4).take 4)
      let newLoad :=
        match dualEpoch loadRaw with
        | some u => some u
        | none => st.loadInstant
      if file16.getD 1 0 = 0x31 then
        let refInstant := if 1420070400 < loadRaw then loadRaw else now
        let endOfMonthUnix := endOfMonth refInstant
        if now < endOfMonthUnix then
          { st with loadInstant := newLoad, expiryInstant := some endOfMonthUnix
                    isActive := true, remainingTimeSeconds := endOfMonthUnix - now }
        else { st with loadInstant := newLoad, expiryInstant := some endOfMonthUnix }
      else
        match dualEpoch (le32 ((file16.drop 8).take 4)) with
        | some u =>
          if now < u then
            { st with loadInstant := newLoad, expiryInstant := some u
                      isActive := true, remainingTimeSeconds := u - now }
          else { st with loadInstant := newLoad, expiryInstant := some u }
        | none => { st with loadInstant := newLoad }
    else st

/-- The default version info used when `desfireInfo` is not supplied
(lines 174–179). -/
def defaultVersionInfo : VersionInfo :=
  { cardType := "Unknown", manufacturer := "Unknown", capacity := "Unknown"
    productionDate := "" }

/-- The initial values of `parseAthenaTicketData`'s result fields
(lines 174–192): everything at its default before any file is decoded. -/
def initTicket (tagId : Option String) (versionInfo : VersionInfo)
    (applicationId : Option String) (enc : Bool) : TicketInfo :=
  let uid := tagId.getD ""
  { cardId := uid, uid := uid, cardType := versionInfo.cardType
    manufacturer := versionInfo.manufacturer, capacity := versionInfo.capacity
    productionDate := versionInfo.productionDate
    tripsRemaining := if enc then .encrypted else .num 0
    activeProduct := none, expiredProduct := none, userCategory := "Unknown"
    isActive := false, remainingTimeSeconds := 0
    expiryInstant := none, loadInstant := none
    isEncrypted := enc, applicationId := applicationId.getD "" }

/-- `parseAthenaTicketData` from ticket.tsx.  The `data` argument (the
accumulated page bytes) is only logged by the source, never decoded, and is
kept for signature fidelity.  Optional JS parameters are `Option`s; the
source's `tagId || ""`, `applicationId || ""`, `isEncrypted || false` and
`desfireInfo || defaults` coalescing is `getD` (the JS falsy fallbacks and
`getD` agree because the defaults are the falsy values themselves). -/
def parseAthenaTicketData (now : ℕ) (endOfMonth : ℕ → ℕ) (data : List ℕ)
    (tagId : Option String) (desfireInfo : Option VersionInfo)
    (applicationId : Option String) (isEncrypted : Option Bool)
    (fileData : Option FileData) : TicketInfo :=
  let _ := data
  let versionInfo := desfireInfo.getD defaultVersionInfo
  let enc := isEncrypted.getD false
  let st := initTicket tagId versionInfo applicationId enc
  match fileData with
  | some fd =>
    if enc then st
    else
      stepTimestamps now endOfMonth (fd 16)
        (stepFile16 (fd 16) (stepFile12 (fd 12) (stepFile4 (fd 4) (stepFile2 (fd 2) st))))
  | none => st

/-! ## TupleTextParser (`parseTupleFormat`, OASTH client lines 44–75)

The source walks the text with two JS regexes:
`/\(([^)]+)\)/g` (top-level groups: an opening paren, a non-empty run of
non-`)` characters, the next `)`) and, inside each group,
`/"([^"]*)"|-?\d+\.?\d*|None|null/g` (quoted string, decimal number,
`None`/`null` literal, scanning left to right, other characters skipped).
The Lean functions below simulate exactly that scan; the `fuel` argument is
initialised to the text length, which bounds the number of scan steps since
every step consumes at least one character. -/

/-- The characters strictly before the first occurrence of `stop`, plus the
remainder after it; `none` when `stop` does not occur. -/
def spanUntil (stop : Char) : List Char → Option (List Char × List Char)
  | [] => none
  | c :: rest =>
    if c = stop then some ([], rest)
    else (spanUntil stop rest).map (fun p => (c :: p.1, p.2))

/-- One match of the `/\(([^)]+)\)/g` group regex per `(` that is followed by
a non-empty run of non-`)` characters and a closing `)`. -/
def tupleGroups : ℕ → List Char → List (List Char)
  | 0, _ => []
  | _, [] => []
  | fuel + 1, '(' :: rest =>
    match spanUntil ')' rest with
    | some (content, rem) =>
      if content = [] then tupleGroups fuel rest
      else content :: tupleGroups fuel rem
    | none => tupleGroups fuel rest
  | fuel + 1, _ :: rest => tupleGroups fuel rest

/-- The tail of the `-?\d+\.?\d*` alternative after an optional minus sign:
greedy digits, then an optional `.` followed by greedy digits. -/
def numTail (l : List Char) : List Char × List Char :=
  let ds := l.takeWhile Char.isDigit
  match l.dropWhile Char.isDigit with
  | '.' :: r2 => (ds ++ '.' :: r2.takeWhile Char.isDigit, r2.dropWhile Char.isDigit)
  | r1 => (ds, r1)

/-- The `-?\d+\.?\d*` alternative: it matches exactly when the scan position
holds a digit, or a minus sign immediately followed by a digit. -/
def numToken : List Char → Option (List Char × List Char)
  | '-' :: rest =>
    match rest with
    | c :: _ =>
      if c.isDigit then
        let p := numTail rest
        some ('-' :: p.1, p.2)
      else none
    | [] => none
  | l@(c :: _) => if c.isDigit then some (numTail l) else none
  | [] => none

/-- One token of `/"([^"]*)"|-?\d+\.?\d*|None|null/g` per position where an
alternative matches: quoted strings push their contents, `None`/`null` push
the empty string, numbers push their matched text; non-matching characters
are skipped. -/
def tupleValues : ℕ → List Char → List String
  | 0, _ => []
  | _, [] => []
  | fuel + 1, '"' :: rest =>
    match spanUntil '"' rest with
    | some (content, rem) => String.mk content :: tupleValues fuel rem
    | none => tupleValues fuel rest
  | fuel + 1, l@(_ :: rest) =>
    if l.take 4 = ['N', 'o', 'n', 'e'] ∨ l.take 4 = ['n', 'u', 'l', 'l'] then
      "" :: tupleValues fuel (l.drop 4)
    else
      match numToken l with
      | some (tok, rem) => String.mk tok :: tupleValues fuel rem
      | none => tupleValues fuel rest

/-- `parseTupleFormat` from the OASTH client: rows are the per-group token
lists, and a group yielding no tokens is not emitted. -/
def parseTupleFormat (text : String) : List (List String) :=
  ((tupleGroups text.data.length text.data).map
    (fun content => tupleValues content.length content)).filter (fun v => !v.isEmpty)

/-! ## A model of `JSON.parse`

`fetchAPI` sniffs for JSON and calls the `JSON.parse` builtin.  The decoder
is parametric in that builtin (see `fetchAPI` below); `jsonParse` is the
concrete model used for closed statements.  It implements the JSON grammar
(RFC 8259): values, objects, arrays, strings with the standard escapes,
numbers with the no-leading-zero rule, `true`/`false`/`null`, and the four
JSON whitespace characters.  `\uXXXX` escapes denoting surrogate code units
are replaced by U+FFFD (Lean `Char` cannot hold lone surrogates); no theorem
exercises that corner. -/

inductive Jv where
  | null
  | bool (b : Bool)
  | num (q : ℚ)
  | str (s : String)
  | arr (elems : List Jv)
  | obj (members : List (String × Jv))

/-- The four JSON whitespace characters. -/
def jsonWs (c : Char) : Bool := c = ' ' ∨ c = '\t' ∨ c = '\n' ∨ c = '\r'

def skipWs (l : List Char) : List Char := l.dropWhile jsonWs

def digitsToNat (ds : List Char) : ℕ :=
  ds.foldl (fun a c => a * 10 + (c.toNat - 48)) 0

/-- Value of one hexadecimal digit. -/
def hexVal (c : Char) : Option ℕ :=
  if c.isDigit then some (c.toNat - 48)
  else if 'a' ≤ c ∧ c ≤ 'f' then some (c.toNat - 87)
  else if 'A' ≤ c ∧ c ≤ 'F' then some (c.toNat - 55)
  else none

/-- The single-character JSON string escapes. -/
def jsonEscape (c : Char) : Option Char :=
  if c = '"' then some '"'
  else if c = '\\' then some '\\'
  else if c = '/' then some '/'
  else if c = 'b' then some (Char.ofNat 8)
  else if c = 'f' then some (Char.ofNat 12)
  else if c = 'n' then some '\n'
  else if c = 'r' then some '\r'
  else if c = 't' then some '\t'
  else none

/-- JSON string body parser, positioned just after the opening quote;
returns the decoded characters and the remainder after the closing quote. -/
def parseJString : List Char → Except String (List Char × List Char)
  | [] => .error "unterminated string"
  | c :: rest =>
    if c = '"' then .ok ([], rest)
    else if c = '\\' then
      match rest with
      | 'u' :: h1 :: h2 :: h3 :: h4 :: rest2 =>
        match hexVal h1, hexVal h2, hexVal h3, hexVal h4 with
        | some a, some b, some c2, some d =>
          let code := ((a * 16 + b) * 16 + c2) * 16 + d
          let ch := if 0xd800 ≤ code ∧ code ≤ 0xdfff then Char.ofNat 0xfffd else Char.ofNat code
          (parseJString rest2).map (fun p => (ch :: p.1, p.2))
        | _, _, _, _ => .error "bad unicode escape"
      | e :: rest2 =>
        match jsonEscape e with
        | some ch => (parseJString rest2).map (fun p => (ch :: p.1, p.2))
        | none => .error "bad escape"
      | [] => .error "bad escape"
    else if c.toNat < 0x20 then .error "control character in string"
    else (parseJString rest).map (fun p => (c :: p.1, p.2))

/-- JSON number parser (sign, integer part without leading zeros, optional
fraction, optional exponent), exact rational value. -/
def parseJNumber (l : List Char) : Except String (ℚ × List Char) :=
  let signAndRest : ℚ × List Char := match l with
    | '-' :: t => (-1, t)
    | _ => (1, l)
  let sgn := signAndRest.1
  let l1 := signAndRest.2
  let intDs := l1.takeWhile Char.isDigit
  if intDs = [] then .error "bad number"
  else if 1 < intDs.length ∧ intDs.headD '0' = '0' then .error "leading zero"
  else
    let l2 := l1.dropWhile Char.isDigit
    let fracAndRest : Except String (List Char × List Char) := match l2 with
      | '.' :: t =>
        if (t.headD 'x').isDigit then .ok (t.takeWhile Char.isDigit, t.dropWhile Char.isDigit)
        else .error "bad fraction"
      | _ => .ok ([], l2)
    match fracAndRest with
    | .error e => .error e
    | .ok (fracDs, l3) =>
      let expAndRest : Except String (ℤ × List Char) := match l3 with
        | 'e' :: t | 'E' :: t =>
          let se : ℤ × List Char := match t with
            | '-' :: r => (-1, r)
            | '+' :: r => (1, r)
            | _ => (1, t)
          if (se.2.headD 'x').isDigit then
            .ok (se.1 * digitsToNat (se.2.takeWhile Char.isDigit), se.2.dropWhile Char.isDigit)
          else .error "bad exponent"
        | _ => .ok (0, l3)
      match expAndRest with
      | .error e => .error e
      | .ok (ex, l4) =>
        let mant : ℚ := (digitsToNat intDs : ℚ) + (digitsToNat fracDs : ℚ) / 10 ^ fracDs.length
        .ok (sgn * mant * (10 : ℚ) ^ ex, l4)

mutual

/-- JSON value parser; `fuel` bounds the recursion depth and is initialised
to more than twice the input length, which every nesting level decreases
while consuming at least one character. -/
def parseJValue : ℕ → List Char → Except String (Jv × List Char)
  | 0, _ => .error "fuel exhausted"
  | fuel + 1, l =>
    match skipWs l with
    | [] => .error "unexpected end of input"
    | '{' :: rest =>
      match skipWs rest with
      | '}' :: rem => .ok (.obj [], rem)
      | rest2 => (parseJMembers fuel rest2).map (fun p => (.obj p.1, p.2))
    | '[' :: rest =>
      match skipWs rest with
      | ']' :: rem => .ok (.arr [], rem)
      | rest2 => (parseJElems fuel rest2).map (fun p => (.arr p.1, p.2))
    | '"' :: rest => (parseJString rest).map (fun p => (.str (String.mk p.1), p.2))
    | l2 =>
      if l2.take 4 = ['t', 'r', 'u', 'e'] then .ok (.bool true, l2.drop 4)
      else if l2.take 5 = ['f', 'a', 'l', 's', 'e'] then .ok (.bool false, l2.drop 5)
      else if l2.take 4 = ['n', 'u', 'l', 'l'] then .ok (.null, l2.drop 4)
      else (parseJNumber l2).map (fun p => (.num p.1, p.2))

/-- Members of a JSON object after `{`, first member's leading whitespace
already skipped. -/
def parseJMembers : ℕ → List Char → Except String (List (String × Jv) × List Char)
  | 0, _ => .error "fuel exhausted"
  | fuel + 1, l =>
    match l with
    | '"' :: rest =>
      match parseJString rest with
      | .error e => .error e
      | .ok (key, rem) =>
        match skipWs rem with
        | ':' :: rem2 =>
          match parseJValue fuel rem2 with
          | .error e => .error e
          | .ok (v, rem3) =>
            match skipWs rem3 with
            | ',' :: rem4 =>
              (parseJMembers fuel (skipWs rem4)).map
                (fun p => ((String.mk key, v) :: p.1, p.2))
            | '}' :: rem4 => .ok ([(String.mk key, v)], rem4)
            | _ => .error "expected comma or closing brace"
        | _ => .error "expected colon"
    | _ => .error "expected object key"

/-- Elements of a JSON array after `[`, first element's leading whitespace
already skipped. -/
def parseJElems : ℕ → List Char → Except String (List Jv × List Char)
  | 0, _ => .error "fuel exhausted"
  | fuel + 1, l =>
    match parseJValue fuel l with
    | .error e => .error e
    | .ok (v, rem) =>
      match skipWs rem with
      | ',' :: rem2 => (parseJElems fuel (skipWs rem2)).map (fun p => (v :: p.1, p.2))
      | ']' :: rem2 => .ok ([v], rem2)
      | _ => .error "expected comma or closing bracket"

end

/-- Model of the `JSON.parse` builtin: parse one JSON value and require only
whitespace after it. -/
def jsonParse (s : String) : Except String Jv :=
  match parseJValue (2 * s.data.length + 2) s.data with
  | .error e => .error e
  | .ok (v, rem) => if skipWs rem = [] then .ok v else .error "trailing characters"

/-! ## TransitResponseDecoder (`decompressGzip` / `fetchAPI`, OASTH client
lines 26–38 and 80–121)

The JS builtins and libraries the decoder calls are passed in as functions:

* `ungzip` models `pako.ungzip(data, { to: "string" })`, which may throw
  (`Except.error`);
* `utf8` models `new TextDecoder("utf-8").decode`, which is total (it never
  throws in its default non-fatal mode);
* `jsonP` models `JSON.parse`;
* `response` models the outcome of `await fetch(url)` followed by
  `response.arrayBuffer()`: either a thrown network error (`Except.error`)
  or an HTTP status flag (`response.ok`) together with the body bytes.

The source's `try { ... } catch { return [] }` around the whole pipeline is
the outer `match`/`if` that maps every thrown error to `ApiResult.emptyArr`
(the `!response.ok` branch throws an `Error` that the same `catch`
swallows). -/

/-- Outcome of `fetch` + `arrayBuffer`: HTTP ok flag and body bytes. -/
structure FetchResponse where
  ok : Bool
  body : List ℕ

/-- The value `fetchAPI` hands back to its callers: an empty array, a parsed
JSON value, or rows from the tuple parser. -/
inductive ApiResult where
  | emptyArr
  | jsonVal (v : Jv)
  | rows (r : List (List String))

/-- `decompressGzip` from the OASTH client: gzip-decompress when the first
two bytes are the gzip magic number `1F 8B`, falling back to plain UTF-8
decoding of the raw bytes both when the magic number is absent and when
decompression throws. -/
def decompressGzip (ungzip : List ℕ → Except String String) (utf8 : List ℕ → String)
    (data : List ℕ) : String :=
  if data.get? 0 = some 0x1f ∧ data.get? 1 = some 0x8b then
    match ungzip data with
    | .ok s => s
    | .error _ => utf8 data
  else utf8 data

/-- `fetchAPI` from the OASTH client: decompress, sniff emptiness, sniff
JSON (falling back to tuple parsing when `JSON.parse` throws), else parse the
tuple format; every error anywhere in the pipeline becomes the empty
array. -/
def fetchAPI (jsonP : String → Except String Jv)
    (ungzip : List ℕ → Except String String) (utf8 : List ℕ → String)
    (response : Except String FetchResponse) : ApiResult :=
  match response with
  | .error _ => .emptyArr
  | .ok resp =>
    if resp.ok = false then .emptyArr
    else
      let text := decompressGzip ungzip utf8 resp.body
      if text = "" ∨ jsTrim text = "" ∨ text = "null" ∨ text = "[]" ∨ text = "()" then
        .emptyArr
      else
        let trimmed := jsTrim text
        if trimmed.data.head? = some '[' ∨ trimmed.data.head? = some '\x7b' then
          match jsonP text with
          | .ok v => .jsonVal v
          | .error _ => .rows (parseTupleFormat text)
        else .rows (parseTupleFormat text)

/-- `new TextDecoder("utf-8").decode` restricted to ASCII bytes (non-ASCII
bytes are abstracted to U+FFFD; every concrete body a theorem below decodes
is pure ASCII, and the universal theorems take the decoder as a
parameter). -/
def utf8DecodeAscii (bs : List ℕ) : String :=
  String.mk (bs.map (fun b => if b < 128 then Char.ofNat b else Char.ofNat 0xfffd))

/-! ## Nearest stops (`getClosestStops`, OASTH client lines 243–275)

The computation is pure once the stop list is in hand (the source first
awaits `getStops()`); the embedding takes the list as an argument.  Number
values are `ℚ`.  The trigonometric builtins (`Math.PI`, `Math.sin`,
`Math.cos`, `Math.atan2`, `Math.sqrt`) have no exact counterpart on `ℚ` and
are passed in as function arguments; theorems about concrete distances
constrain them only by identities that the real functions satisfy exactly
(`sin 0 = 0`, `sqrt 0 = 0`, `sqrt 1 = 1`, `atan2 0 1 = 0` — all exact in
IEEE arithmetic as well). -/

structure Stop where
  StopCode : String
  StopID : String
  StopDescr : String
  StopDescrEng : String
  StopStreet : Option String
  StopStreetEng : Option String
  StopHeading : String
  StopLat : String
  StopLng : String
deriving DecidableEq, Repr

/-- A stop spread together with its `distance` string
(`{ ...stop, distance }`). -/
structure StopD extends Stop where
  distance : String
deriving DecidableEq, Repr

/-- The textual pieces `parseFloat` extracts: sign, integer digits, fraction
digits (with their count, for the power of ten), exponent. -/
def parseFloatParts (s : String) : Option (Bool × ℕ × ℕ × ℕ × ℤ) :=
  let l := s.data.dropWhile Char.isWhitespace
  let signAndRest : Bool × List Char := match l with
    | '-' :: t => (true, t)
    | '+' :: t => (false, t)
    | _ => (false, l)
  let neg := signAndRest.1
  let l1 := signAndRest.2
  let intDs := l1.takeWhile Char.isDigit
  let l2 := l1.dropWhile Char.isDigit
  let fracAndRest : List Char × List Char := match l2 with
    | '.' :: t => (t.takeWhile Char.isDigit, t.dropWhile Char.isDigit)
    | _ => ([], l2)
  let fracDs := fracAndRest.1
  let l3 := fracAndRest.2
  if intDs = [] ∧ fracDs = [] then none
  else
    let ex : ℤ := match l3 with
      | 'e' :: t | 'E' :: t =>
        let se : ℤ × List Char := match t with
          | '-' :: r => (-1, r)
          | '+' :: r => (1, r)
          | _ => (1, t)
        if (se.2.headD 'x').isDigit then se.1 * digitsToNat (se.2.takeWhile Char.isDigit)
        else 0
      | _ => 0
    some (neg, digitsToNat intDs, digitsToNat fracDs, fracDs.length, ex)

/-- The rational value of the extracted pieces. -/
def partsToQ : Bool × ℕ × ℕ × ℕ × ℤ → ℚ
  | (neg, i, f, k, e) =>
    (if neg then -1 else 1) * ((i : ℚ) + (f : ℚ) / 10 ^ k) * (10 : ℚ) ^ e

/-- Model of the `parseFloat` builtin on decimal notation: skip leading
whitespace, optional sign, longest prefix of the form `digits [. digits]
[(e|E) [sign] digits]`; `none` models `NaN`.  (The `Infinity` literal is not
modelled; no input here produces it.) -/
def parseFloatQ (s : String) : Option ℚ :=
  (parseFloatParts s).map partsToQ

/-- Digit rendering of `Number.prototype.toFixed(2)` for a non-negative
number of hundredths. -/
def fixedFmt (m : ℕ) : String :=
  toString (m / 100) ++ "." ++ (if m % 100 < 10 then "0" else "") ++ toString (m % 100)

/-- Model of `Number.prototype.toFixed(2)`: round to the nearest hundredth,
ties toward positive infinity (the ECMAScript "pick the larger n" rule), and
print with exactly two fraction digits.  (The exponential form for
magnitudes ≥ 10^21 and the `"-0.00"` output for tiny negative values are not
modelled; distances here are non-negative and small.) -/
def toFixed2 (q : ℚ) : String :=
  if ⌊q * 100 + 1 / 2⌋ < 0 then "-" ++ fixedFmt (⌊q * 100 + 1 / 2⌋).natAbs
  else fixedFmt (⌊q * 100 + 1 / 2⌋).toNat

/-- The filter `stop.StopLat && stop.StopLng && stop.StopLat !== '0' &&
stop.StopLng !== '0'` (empty strings are falsy). -/
def hasCoords (s : Stop) : Bool :=
  s.StopLat ≠ "" ∧ s.StopLng ≠ "" ∧ s.StopLat ≠ "0" ∧ s.StopLng ≠ "0"

/-- The body of the `.map` in `getClosestStops`: haversine distance
(Earth radius 6371 km) formatted with `toFixed(2)`, or the `'999'` sentinel
when either coordinate parses to `NaN`. -/
def stopWithDistance (piQ : ℚ) (sinQ cosQ sqrtQ : ℚ → ℚ) (atan2Q : ℚ → ℚ → ℚ)
    (lat lng : ℚ) (stop : Stop) : StopD :=
  match parseFloatQ stop.StopLat, parseFloatQ stop.StopLng with
  | some stopLat, some stopLng =>
    let dLat := (stopLat - lat) * piQ / 180
    let dLng := (stopLng - lng) * piQ / 180
    let a := sinQ (dLat / 2) * sinQ (dLat / 2) +
      cosQ (lat * piQ / 180) * cosQ (stopLat * piQ / 180) *
        sinQ (dLng / 2) * sinQ (dLng / 2)
    let c := 2 * atan2Q (sqrtQ a) (sqrtQ (1 - a))
    let distance := 6371 * c
    { toStop := stop, distance := toFixed2 distance }
  | _, _ => { toStop := stop, distance := "999" }

/-- Sort key of the comparator `(a, b) => parseFloat(a.distance) -
parseFloat(b.distance)` (every `distance` string produced above is parseable;
`getD` is a technical total-ization). -/
def sortKey (sd : StopD) : ℚ := (parseFloatQ sd.distance).getD 0

/-- Stable insertion of `x` into a list sorted by `sortKey`. -/
def insertByKey (x : StopD) : List StopD → List StopD
  | [] => [x]
  | y :: ys => if sortKey x ≤ sortKey y then x :: y :: ys else y :: insertByKey x ys

/-- Stable ascending sort by `sortKey`.  `Array.prototype.sort` with the
numeric comparator is a stable ascending sort (ES2019 requires stability),
and a stable sort under a total preorder is unique, so insertion sort
computes exactly the source's result. -/
def sortByKey : List StopD → List StopD
  | [] => []
  | x :: xs => insertByKey x (sortByKey xs)

/-- `getClosestStops` from the OASTH client, after the stop list has been
fetched: filter out stops with missing or literal-`'0'` coordinates, attach
distances (sentinel `'999'` on unparseable coordinates), sort ascending by
parsed distance, return the first 30. -/
def getClosestStops (piQ : ℚ) (sinQ cosQ sqrtQ : ℚ → ℚ) (atan2Q : ℚ → ℚ → ℚ)
    (allStops : List Stop) (lat lng : ℚ) : List StopD :=
  if allStops.isEmpty then []
  else
    let stopsWithDistance := (allStops.filter hasCoords).map
      (stopWithDistance piQ sinQ cosQ sqrtQ atan2Q lat lng)
    (sortByKey stopsWithDistance).take 30

/-! ## Step lemmas

Each decoder step writes only its own fields; these projection lemmas let
the claim proofs push a fact through the pipeline. -/

theorem stepFile2_projs (o : Option (List ℕ)) (st : TicketInfo) :
    (stepFile2 o st).tripsRemaining = st.tripsRemaining ∧
    (stepFile2 o st).activeProduct = st.activeProduct ∧
    (stepFile2 o st).expiredProduct = st.expiredProduct ∧
    (stepFile2 o st).expiryInstant = st.expiryInstant ∧
    (stepFile2 o st).loadInstant = st.loadInstant := by
  unfold stepFile2
  cases o with
  | none => exact ⟨rfl, rfl, rfl, rfl, rfl⟩
  | some f =>
    dsimp only
    split <;> exact ⟨rfl, rfl, rfl, rfl, rfl⟩

theorem stepFile4_projs (o : Option (List ℕ)) (st : TicketInfo) :
    (stepFile4 o st).tripsRemaining = st.tripsRemaining ∧
    (stepFile4 o st).activeProduct = st.activeProduct ∧
    (stepFile4 o st).expiredProduct = st.expiredProduct ∧
    (stepFile4 o st).expiryInstant = st.expiryInstant ∧
    (stepFile4 o st).loadInstant = st.loadInstant := by
  unfold stepFile4
  cases o with
  | none => exact ⟨rfl, rfl, rfl, rfl, rfl⟩
  | some f =>
    dsimp only
    split <;> exact ⟨rfl, rfl, rfl, rfl, rfl⟩

theorem stepFile12_projs (o : Option (List ℕ)) (st : TicketInfo) :
    (stepFile12 o st).activeProduct = st.activeProduct ∧
    (stepFile12 o st).expiredProduct = st.expiredProduct ∧
    (stepFile12 o st).expiryInstant = st.expiryInstant ∧
    (stepFile12 o st).loadInstant = st.loadInstant := by
  unfold stepFile12
  cases o with
  | none => exact ⟨rfl, rfl, rfl, rfl⟩
  | some f =>
    dsimp only
    split <;> exact ⟨rfl, rfl, rfl, rfl⟩

theorem stepFile12_set (f : List ℕ) (st : TicketInfo) (h : 4 ≤ f.length) :
    stepFile12 (some f) st = { st with tripsRemaining := .num (le32 f) } := by
  unfold stepFile12
  simp [h]

theorem stepFile12_none (st : TicketInfo) : stepFile12 none st = st := rfl

theorem stepFile16_projs (o : Option (List ℕ)) (st : TicketInfo) :
    (stepFile16 o st).expiryInstant = st.expiryInstant ∧
    (stepFile16 o st).loadInstant = st.loadInstant := by
  unfold stepFile16
  cases o with
  | none => exact ⟨rfl, rfl⟩
  | some f =>
    dsimp only
    split <;> exact ⟨rfl, rfl⟩

theorem stepTimestamps_projs (now : ℕ) (eom : ℕ → ℕ) (o : Option (List ℕ))
    (st : TicketInfo) :
    (stepTimestamps now eom o st).tripsRemaining = st.tripsRemaining ∧
    (stepTimestamps now eom o st).activeProduct = st.activeProduct ∧
    (stepTimestamps now eom o st).expiredProduct = st.expiredProduct := by
  unfold stepTimestamps
  cases o with
  | none => exact ⟨rfl, rfl, rfl⟩
  | some f =>
    dsimp only
    repeat' split
    all_goals exact ⟨rfl, rfl, rfl⟩

theorem stepFile16_period (f16 : List ℕ) (st : TicketInfo) (hlen : 32 ≤ f16.length)
    (hp : periodCond16 f16) :
    (stepFile16 (some f16) st).activeProduct = some (ProductInfo.mk "Monthly" 0) ∧
    (stepFile16 (some f16) st).tripsRemaining = .unlimited := by
  unfold stepFile16 file16Active
  dsimp only
  rw [if_pos hlen]
  simp [if_pos hp]

theorem stepFile16_count (f16 : List ℕ) (st : TicketInfo) (hlen : 32 ≤ f16.length)
    (hnp : ¬ periodCond16 f16) (hpos : 0 < f16.getD 16 0) :
    (stepFile16 (some f16) st).activeProduct =
      some (ProductInfo.mk (toString (f16.getD 16 0) ++ " trips") (f16.getD 16 0)) ∧
    (stepFile16 (some f16) st).tripsRemaining =
      (if st.tripsRemaining = .num 0 then .num (f16.getD 16 0) else st.tripsRemaining) := by
  unfold stepFile16 file16Active
  dsimp only
  rw [if_pos hlen]
  simp only [if_neg hnp, if_pos hpos]
  refine ⟨by simp, ?_⟩
  have hne : f16.getD 16 0 ≠ 0 := Nat.pos_iff_ne_zero.mp hpos
  by_cases h0 : st.tripsRemaining = .num 0
  · rw [if_pos h0, if_pos ⟨h0, hne⟩]
  · rw [if_neg h0, if_neg (fun hc => h0 hc.1)]

theorem stepFile16_trips_keep (o : Option (List ℕ)) (st : TicketInfo) (v : ℕ)
    (hv : st.tripsRemaining = .num v) (hvz : v ≠ 0) (hact : st.activeProduct = none)
    (hnp : ∀ f16, o = some f16 → 32 ≤ f16.length → ¬ periodCond16 f16) :
    (stepFile16 o st).tripsRemaining = .num v := by
  unfold stepFile16 file16Active
  cases o with
  | none => exact hv
  | some f =>
    dsimp only
    split
    · rename_i hlen
      have hnp' := hnp f rfl hlen
      simp only [if_neg hnp', hact]
      split
      · rename_i hpos
        simp [hv, hvz]
      · exact hv
    · exact hv

theorem stepTimestamps_count (now : ℕ) (eom : ℕ → ℕ) (f16 : List ℕ) (st : TicketInfo)
    (hlen : 12 ≤ f16.length) (hct : f16.getD 1 0 ≠ 0x31)
    (hE : st.expiryInstant = none) (hL : st.loadInstant = none) :
    (stepTimestamps now eom (some f16) st).expiryInstant
      = dualEpoch (le32 ((f16.drop 8).take 4)) ∧
    (stepTimestamps now eom (some f16) st).loadInstant
      = dualEpoch (le32 ((f16.drop 4).take 4)) := by
  unfold stepTimestamps
  dsimp only
  rw [if_pos hlen]
  simp only [if_neg hct]
  cases hde : dualEpoch (le32 ((f16.drop 8).take 4)) with
  | none =>
    simp only [hde]
    cases hdl : dualEpoch (le32 ((f16.drop 4).take 4)) with
    | none => simp [hdl, hE, hL]
    | some u => simp [hdl, hE]
  | some u =>
    simp only [hde]
    cases hdl : dualEpoch (le32 ((f16.drop 4).take 4)) with
    | none => split <;> simp [hdl, hL]
    | some w => split <;> simp [hdl]

/-! ## Claim C1 — encrypted cards decode to all-default fields -/

/-- C1: whenever the encryption flag is true, `parseAthenaTicketData` reports
`tripsRemaining = "encrypted"` and leaves every file-derived field at its
default (card id = UID, category "Unknown", no products, inactive, zero
remaining seconds, no expiry or load date), for every file map supplied. -/
theorem C1_encrypted_defaults (now : ℕ) (eom : ℕ → ℕ) (data : List ℕ)
    (tagId : Option String) (dv : Option VersionInfo) (appId : Option String)
    (fd : Option FileData) :
    (parseAthenaTicketData now eom data tagId dv appId (some true) fd).tripsRemaining
        = .encrypted ∧
    (parseAthenaTicketData now eom data tagId dv appId (some true) fd).cardId
        = tagId.getD "" ∧
    (parseAthenaTicketData now eom data tagId dv appId (some true) fd).uid
        = tagId.getD "" ∧
    (parseAthenaTicketData now eom data tagId dv appId (some true) fd).userCategory
        = "Unknown" ∧
    (parseAthenaTicketData now eom data tagId dv appId (some true) fd).activeProduct
        = none ∧
    (parseAthenaTicketData now eom data tagId dv appId (some true) fd).expiredProduct
        = none ∧
    (parseAthenaTicketData now eom data tagId dv appId (some true) fd).isActive
        = false ∧
    (parseAthenaTicketData now eom data tagId dv appId (some true) fd).remainingTimeSeconds
        = 0 ∧
    (parseAthenaTicketData now eom data tagId dv appId (some true) fd).expiryInstant
        = none ∧
    (parseAthenaTicketData now eom data tagId dv appId (some true) fd).loadInstant
        = none := by
  cases fd <;> simp [parseAthenaTicketData, initTicket]

/-! ## Claim C10 — short version data yields the labelled defaults -/

/-- C10: for every version byte block shorter than 7 bytes the decoder
returns card type "DESFire" (not "Unknown"), manufacturer "Unknown",
capacity "Unknown" and an empty production date. -/
theorem C10_short_version_defaults (v : List ℕ) (h : v.length < 7) :
    parseDESFireVersion v =
      { cardType := "DESFire", manufacturer := "Unknown", capacity := "Unknown"
        productionDate := "" } := by
  unfold parseDESFireVersion prodDateOf
  rw [if_neg (by omega : ¬ 7 ≤ v.length), if_neg (by omega : ¬ 28 ≤ v.length)]

/-- Witness for C10 at the empty block. -/
theorem C10_short_version_defaults_witness :
    ([] : List ℕ).length < 7 ∧
    parseDESFireVersion [] =
      { cardType := "DESFire", manufacturer := "Unknown", capacity := "Unknown"
        productionDate := "" } :=
  ⟨by decide, C10_short_version_defaults [] (by decide)⟩

theorem stepFile12_short (f : List ℕ) (st : TicketInfo) (h : ¬ 4 ≤ f.length) :
    stepFile12 (some f) st = st := by
  unfold stepFile12
  simp [h]

/-- `parseAthenaTicketData` with a file map and the encryption flag down is
the step pipeline over the initial state. -/
theorem parse_pipeline (now : ℕ) (eom : ℕ → ℕ) (data : List ℕ)
    (tagId : Option String) (dv : Option VersionInfo) (appId : Option String)
    (fd : FileData) :
    parseAthenaTicketData now eom data tagId dv appId (some false) (some fd) =
      stepTimestamps now eom (fd 16) (stepFile16 (fd 16) (stepFile12 (fd 12)
        (stepFile4 (fd 4) (stepFile2 (fd 2) (initTicket tagId
          (dv.getD defaultVersionInfo) appId false))))) :=
  rfl

theorem pre16_active (fd : FileData) (tagId : Option String) (vi : VersionInfo)
    (appId : Option String) :
    (stepFile12 (fd 12) (stepFile4 (fd 4) (stepFile2 (fd 2)
      (initTicket tagId vi appId false)))).activeProduct = none := by
  rw [(stepFile12_projs _ _).1, (stepFile4_projs _ _).2.1, (stepFile2_projs _ _).2.1]
  rfl

theorem pre16_expiry (fd : FileData) (tagId : Option String) (vi : VersionInfo)
    (appId : Option String) :
    (stepFile12 (fd 12) (stepFile4 (fd 4) (stepFile2 (fd 2)
      (initTicket tagId vi appId false)))).expiryInstant = none := by
  rw [(stepFile12_projs _ _).2.2.1, (stepFile4_projs _ _).2.2.2.1,
    (stepFile2_projs _ _).2.2.2.1]
  rfl

theorem pre16_load (fd : FileData) (tagId : Option String) (vi : VersionInfo)
    (appId : Option String) :
    (stepFile12 (fd 12) (stepFile4 (fd 4) (stepFile2 (fd 2)
      (initTicket tagId vi appId false)))).loadInstant = none := by
  rw [(stepFile12_projs _ _).2.2.2, (stepFile4_projs _ _).2.2.2.2,
    (stepFile2_projs _ _).2.2.2.2]
  rfl

theorem pre16_trips_base (fd : FileData) (tagId : Option String) (vi : VersionInfo)
    (appId : Option String) :
    (stepFile4 (fd 4) (stepFile2 (fd 2)
      (initTicket tagId vi appId false))).tripsRemaining = Trips.num 0 := by
  rw [(stepFile4_projs _ _).1, (stepFile2_projs _ _).1]
  rfl

theorem pre16_trips_none (fd : FileData) (tagId : Option String) (vi : VersionInfo)
    (appId : Option String) (h12 : fd 12 = none) :
    (stepFile12 (fd 12) (stepFile4 (fd 4) (stepFile2 (fd 2)
      (initTicket tagId vi appId false)))).tripsRemaining = Trips.num 0 := by
  rw [h12, stepFile12_none]
  exact pre16_trips_base fd tagId vi appId

theorem pre16_trips_some (fd : FileData) (tagId : Option String) (vi : VersionInfo)
    (appId : Option String) (f12 : List ℕ) (h12 : fd 12 = some f12)
    (hl : 4 ≤ f12.length) :
    (stepFile12 (fd 12) (stepFile4 (fd 4) (stepFile2 (fd 2)
      (initTicket tagId vi appId false)))).tripsRemaining = Trips.num (le32 f12) := by
  rw [h12, stepFile12_set _ _ hl]

/-! ## Claim C6 — file 16 product decoding -/

/-- C6: for a file 16 of at least 32 bytes, if the first record satisfies the
period condition (type byte `0x31`, or trip-count byte 0 with first byte not
`0xFF`) the decoder reports an active "Monthly" product and `"unlimited"`
trips; otherwise a positive trip-count byte `n` yields an active product
named `"n trips"`, and with no file 12 the reported trips equal `n`. -/
theorem C6_file16_products (now : ℕ) (eom : ℕ → ℕ) (data : List ℕ)
    (tagId : Option String) (dv : Option VersionInfo) (appId : Option String)
    (fd : FileData) (f16 : List ℕ) (h16 : fd 16 = some f16)
    (hlen : 32 ≤ f16.length) :
    (periodCond16 f16 →
      (parseAthenaTicketData now eom data tagId dv appId (some false)
        (some fd)).activeProduct = some (ProductInfo.mk "Monthly" 0) ∧
      (parseAthenaTicketData now eom data tagId dv appId (some false)
        (some fd)).tripsRemaining = .unlimited) ∧
    (¬ periodCond16 f16 → 0 < f16.getD 16 0 →
      (parseAthenaTicketData now eom data tagId dv appId (some false)
        (some fd)).activeProduct =
          some (ProductInfo.mk (toString (f16.getD 16 0) ++ " trips") (f16.getD 16 0)) ∧
      (fd 12 = none →
        (parseAthenaTicketData now eom data tagId dv appId (some false)
          (some fd)).tripsRemaining = .num (f16.getD 16 0))) := by
  rw [parse_pipeline, h16]
  constructor
  · intro hp
    constructor
    · rw [(stepTimestamps_projs _ _ _ _).2.1]
      exact (stepFile16_period f16 _ hlen hp).1
    · rw [(stepTimestamps_projs _ _ _ _).1]
      exact (stepFile16_period f16 _ hlen hp).2
  · intro hnp hpos
    constructor
    · rw [(stepTimestamps_projs _ _ _ _).2.1]
      exact (stepFile16_count f16 _ hlen hnp hpos).1
    · intro h12
      rw [(stepTimestamps_projs _ _ _ _).1, (stepFile16_count f16 _ hlen hnp hpos).2,
        if_pos (pre16_trips_none fd tagId (dv.getD defaultVersionInfo) appId h12)]

/-- Witness for C6 on a monthly record and on a 15-trip record. -/
theorem C6_file16_products_witness :
    (parseAthenaTicketData 0 (fun _ => 0) [] none none none (some false)
      (some (fun i => if i = 16 then some ([1, 0x31] ++ List.replicate 30 0) else none))).tripsRemaining
      = .unlimited ∧
    (parseAthenaTicketData 0 (fun _ => 0) [] none none none (some false)
      (some (fun i => if i = 16 then
        some ([1, 0x32] ++ List.replicate 14 0 ++ [15] ++ List.replicate 15 0) else none))).tripsRemaining
      = .num 15 := by
  constructor
  · exact ((C6_file16_products 0 (fun _ => 0) [] none none none
      (fun i => if i = 16 then some ([1, 0x31] ++ List.replicate 30 0) else none)
      ([1, 0x31] ++ List.replicate 30 0) rfl (by decide)).1 (by decide)).2
  · exact (((C6_file16_products 0 (fun _ => 0) [] none none none
      (fun i => if i = 16 then
        some ([1, 0x32] ++ List.replicate 14 0 ++ [15] ++ List.replicate 15 0) else none)
      ([1, 0x32] ++ List.replicate 14 0 ++ [15] ++ List.replicate 15 0) rfl
      (by decide)).2 (by decide) (by decide)).2 rfl)

/-! ## Claim C7 — trips-remaining priority between file 12 and products -/

/-- C7 (amended): with no period pass in sight, a file-12 reading of at
least 4 bytes fixes trips-remaining whenever its little-endian value is
non-zero; but a zero file-12 value does not stick — the active count-based
product's trip count overrides it, because the fallback fires whenever the
accumulated trips value is the number 0, not only when file 12 is absent or
short. -/
theorem C7_amended_trips_priority (now : ℕ) (eom : ℕ → ℕ) (data : List ℕ)
    (tagId : Option String) (dv : Option VersionInfo) (appId : Option String)
    (fd : FileData) (f12 : List ℕ) (h12 : fd 12 = some f12)
    (hlen : 4 ≤ f12.length) :
    (le32 f12 ≠ 0 →
      (∀ f16, fd 16 = some f16 → 32 ≤ f16.length → ¬ periodCond16 f16) →
      (parseAthenaTicketData now eom data tagId dv appId (some false)
        (some fd)).tripsRemaining = .num (le32 f12)) ∧
    (∀ f16, fd 16 = some f16 → 32 ≤ f16.length → ¬ periodCond16 f16 →
      le32 f12 = 0 → 0 < f16.getD 16 0 →
      (parseAthenaTicketData now eom data tagId dv appId (some false)
        (some fd)).tripsRemaining = .num (f16.getD 16 0)) := by
  have ht := pre16_trips_some fd tagId (dv.getD defaultVersionInfo) appId f12 h12 hlen
  constructor
  · intro hnz hnp
    rw [parse_pipeline, (stepTimestamps_projs _ _ _ _).1]
    exact stepFile16_trips_keep (fd 16) _ (le32 f12) ht hnz (pre16_active _ _ _ _) hnp
  · intro f16 h16 h16len hnp hz hpos
    rw [parse_pipeline, h16, (stepTimestamps_projs _ _ _ _).1,
      (stepFile16_count f16 _ h16len hnp hpos).2]
    rw [hz] at ht
    rw [if_pos ht]

/-- Witness for C7 with file 12 holding the value 5 and no file 16. -/
theorem C7_amended_trips_priority_witness :
    (parseAthenaTicketData 0 (fun _ => 0) [] none none none (some false)
      (some (fun i => if i = 12 then some [5, 0, 0, 0] else none))).tripsRemaining
      = .num (le32 [5, 0, 0, 0]) :=
  (C7_amended_trips_priority 0 (fun _ => 0) [] none none none
    (fun i => if i = 12 then some [5, 0, 0, 0] else none) [5, 0, 0, 0] rfl
    (by decide)).1 (by decide) (fun f16 h _ => Option.noConfusion h)

/-- C7 counterexample: file 12 present with 4 bytes reading 0, and a
count-based 15-trip product in file 16 — the decoder reports 15, not the
file-12 value 0, contradicting "the product count is used only when file 12
is absent or short". -/
theorem C7_zero_file12_overridden :
    le32 [0, 0, 0, 0] = 0 ∧
    (parseAthenaTicketData 0 (fun _ => 0) [] none none none (some false)
      (some (mkFileData [(12, [0, 0, 0, 0]),
        (16, [1, 0x32] ++ List.replicate 14 0 ++ [15] ++ List.replicate 15 0)]))).tripsRemaining
      = .num 15 := by
  decide

/-! ## Claim C5 — dual-epoch timestamp decoding for count-based products -/

/-- C5 (amended): for a non-period record (type byte not `0x31`) in a file 16
of at least 12 bytes, the expiry instant is `dualEpoch` of the unsigned
little-endian 32-bit integer at bytes 8–11 and the load instant is
`dualEpoch` of bytes 4–7, where `dualEpoch t` accepts `t` only strictly
inside the open window (1420070400, 2208988800) — the boundary instant
2015-01-01 00:00:00 UTC itself is rejected — and otherwise, for positive
`t`, accepts `852076800 + t` against the same open window, else yields no
instant. -/
theorem C5_amended_dual_epoch (now : ℕ) (eom : ℕ → ℕ) (data : List ℕ)
    (tagId : Option String) (dv : Option VersionInfo) (appId : Option String)
    (fd : FileData) (f16 : List ℕ) (h16 : fd 16 = some f16)
    (hlen : 12 ≤ f16.length) (hct : f16.getD 1 0 ≠ 0x31) :
    (parseAthenaTicketData now eom data tagId dv appId (some false)
      (some fd)).expiryInstant = dualEpoch (le32 ((f16.drop 8).take 4)) ∧
    (parseAthenaTicketData now eom data tagId dv appId (some false)
      (some fd)).loadInstant = dualEpoch (le32 ((f16.drop 4).take 4)) ∧
    (∀ t, 1420070400 < t → t < 2208988800 → dualEpoch t = some t) ∧
    (∀ t, ¬ (1420070400 < t ∧ t < 2208988800) → 0 < t →
      1420070400 < 852076800 + t → 852076800 + t < 2208988800 →
      dualEpoch t = some (852076800 + t)) ∧
    (∀ t, ¬ (1420070400 < t ∧ t < 2208988800) →
      ¬ (0 < t ∧ 1420070400 < 852076800 + t ∧ 852076800 + t < 2208988800) →
      dualEpoch t = none) := by
  refine ⟨?_, ?_, ?_, ?_, ?_⟩
  · rw [parse_pipeline, h16]
    exact (stepTimestamps_count now eom f16 _ hlen hct
      (by rw [(stepFile16_projs _ _).1, pre16_expiry])
      (by rw [(stepFile16_projs _ _).2, pre16_load])).1
  · rw [parse_pipeline, h16]
    exact (stepTimestamps_count now eom f16 _ hlen hct
      (by rw [(stepFile16_projs _ _).1, pre16_expiry])
      (by rw [(stepFile16_projs _ _).2, pre16_load])).2
  · intro t h1 h2
    unfold dualEpoch
    rw [if_pos ⟨h1, h2⟩]
  · intro t hn hp hl hr
    unfold dualEpoch
    rw [if_neg hn, if_pos hp, if_pos ⟨hl, hr⟩]
  · intro t hn hn2
    unfold dualEpoch
    rw [if_neg hn]
    by_cases hp : 0 < t
    · rw [if_pos hp, if_neg (fun hc => hn2 ⟨hp, hc.1, hc.2⟩)]
    · rw [if_neg hp]

/-- Witness for C5 on a 12-byte record with raw load 1 and raw expiry 2
(both rejected by the heuristic). -/
theorem C5_amended_dual_epoch_witness :
    (parseAthenaTicketData 0 (fun _ => 0) [] none none none (some false)
      (some (fun i => if i = 16 then
        some [1, 0x32, 0, 0, 1, 0, 0, 0, 2, 0, 0, 0] else none))).expiryInstant
      = dualEpoch (le32 (([1, 0x32, 0, 0, 1, 0, 0, 0, 2, 0, 0, 0].drop 8).take 4)) ∧
    (parseAthenaTicketData 0 (fun _ => 0) [] none none none (some false)
      (some (fun i => if i = 16 then
        some [1, 0x32, 0, 0, 1, 0, 0, 0, 2, 0, 0, 0] else none))).loadInstant
      = dualEpoch (le32 (([1, 0x32, 0, 0, 1, 0, 0, 0, 2, 0, 0, 0].drop 4).take 4)) := by
  have h := C5_amended_dual_epoch 0 (fun _ => 0) [] none none none
    (fun i => if i = 16 then some [1, 0x32, 0, 0, 1, 0, 0, 0, 2, 0, 0, 0] else none)
    [1, 0x32, 0, 0, 1, 0, 0, 0, 2, 0, 0, 0] rfl (by decide) (by decide)
  exact ⟨h.1, h.2.1⟩

/-- C5 counterexample: the raw expiry 1420070400 (2015-01-01 00:00:00 UTC)
lies inside the claim's closed-left window `[1420070400, 2208988800)`, so
the claim would use it directly, but the code's strict `>` rejects it and —
the epoch-shifted value 2272147200 also failing the window — leaves the
expiry date null. -/
theorem C5_window_lower_bound_excluded :
    le32 [0x00, 0x8e, 0xa4, 0x54] = 1420070400 ∧
    (parseAthenaTicketData 0 (fun _ => 0) [] none none none (some false)
      (some (mkFileData [(16, [1, 0x32, 0, 0, 0, 0, 0, 0, 0x00, 0x8e, 0xa4, 0x54])]))).expiryInstant
      = none := by
  decide

/-! ## Claim C9 — production date from version bytes 26/27 -/

theorem parseDESFireVersion_prodDate (v : List ℕ) :
    (parseDESFireVersion v).productionDate = prodDateOf v := by
  unfold parseDESFireVersion
  split <;> rfl

/-- C9 (amended): with at least 28 version bytes, week byte `w = v[26]` in
1–53 and year byte `y = v[27]` produce "Week w, 2000+y" (y < 50) or
"Week w, 1900+y" — but only when `y` is also positive; an invalid week (0 or
above 53) or a zero year byte suppresses the production date. -/
theorem C9_amended_production_date (v : List ℕ) (h : 28 ≤ v.length) :
    (0 < v.getD 26 0 → v.getD 26 0 ≤ 53 → 0 < v.getD 27 0 →
      (parseDESFireVersion v).productionDate =
        "Week " ++ toString (v.getD 26 0) ++ ", " ++
          toString (if v.getD 27 0 < 50 then 2000 + v.getD 27 0
            else 1900 + v.getD 27 0)) ∧
    (v.getD 26 0 = 0 ∨ 53 < v.getD 26 0 ∨ v.getD 27 0 = 0 →
      (parseDESFireVersion v).productionDate = "") := by
  constructor
  · intro h1 h2 h3
    rw [parseDESFireVersion_prodDate]
    unfold prodDateOf
    rw [if_pos h, if_pos ⟨h1, h2, h3⟩]
  · intro hbad
    rw [parseDESFireVersion_prodDate]
    unfold prodDateOf
    rw [if_pos h, if_neg (by omega)]

/-- Witness for C9 at week 10, year byte 23 (the spec's own example). -/
theorem C9_amended_production_date_witness :
    (parseDESFireVersion (List.replicate 26 0 ++ [10, 23])).productionDate
      = "Week 10, 2023" := by
  have h := (C9_amended_production_date (List.replicate 26 0 ++ [10, 23])
    (by decide)).1 (by decide) (by decide) (by decide)
  rw [h]
  decide

/-- C9 counterexample: 28 version bytes with a valid week 10 but year byte 0
yield an empty production date, where the claim — which conditions only on
the week being 1–53 — would demand "Week 10, 2000". -/
theorem C9_zero_year_suppresses :
    28 ≤ (List.replicate 26 0 ++ [10, 0] : List ℕ).length ∧
    (List.replicate 26 0 ++ [10, 0] : List ℕ).getD 26 0 = 10 ∧
    (parseDESFireVersion (List.replicate 26 0 ++ [10, 0])).productionDate = "" := by
  decide

/-! ## Claim C8 — card id formatting from file 2 -/

/-- C8: the card id the decoder actually produces for the bytes of the
source's own comment (`00 02 16 39 54`, documented there as yielding
`"3001 0100 0216 3954"`).  Because `.replace(/(.{4})/g, "$1 ")` runs over a
string that already contains the prefix's spaces, the output has a doubled
space and 1-character groups instead of uniform space-separated 4-character
blocks. -/
theorem C8_cardId_garbled :
    (parseAthenaTicketData 0 (fun _ => 0) [] (some "0494") none none (some false)
      (some (mkFileData [(2, List.replicate 12 0 ++ [0x00, 0x02, 0x16, 0x39, 0x54]
        ++ [0, 0, 0])]))).cardId
      = "3001  010 0 00 0216 3954" := by
  decide

/-! ## Claim C3 — the tuple text parser -/

/-- C3: the tuple parser maps `(1, "a", None), (2, "b", 3)` to exactly
`[["1","a",""], ["2","b","3"]]` — quoted tokens dequoted, bare numbers
verbatim, `None`/`null` as the empty string, tokens left to right — and a
group producing zero tokens is dropped: no row of the output is ever
empty. -/
theorem C3_tuple_rows :
    parseTupleFormat "(1, \"a\", None), (2, \"b\", 3)"
      = [["1", "a", ""], ["2", "b", "3"]] ∧
    ∀ t r, r ∈ parseTupleFormat t → r ≠ [] := by
  constructor
  · decide
  · intro t r hr
    unfold parseTupleFormat at hr
    rw [List.mem_filter] at hr
    simpa using hr.2

/-- Witness for C3: a singleton group parses to a non-empty row. -/
theorem C3_tuple_rows_witness :
    ["1"] ∈ parseTupleFormat "(1)" ∧ ["1"] ≠ ([] : List String) :=
  ⟨by decide, C3_tuple_rows.2 "(1)" ["1"] (by decide)⟩

/-! ## Claim C2 — the transit response decoder's failure behaviour -/

/-- C2 (amended): the decoder never throws — a thrown network error or a
non-ok HTTP status is converted to the empty array at its `catch` boundary,
and a gzip-decompression failure on a magic-numbered buffer falls back to
plain UTF-8 decoding of the raw bytes.  The result, however, is not always
an array: when the body text sniffs as JSON and `JSON.parse` succeeds, the
parsed JSON value — which may be a non-array object — is returned as is. -/
theorem C2_amended_error_paths :
    (∀ (ungzip : List ℕ → Except String String) (utf8 : List ℕ → String)
      (data : List ℕ) (e : String), ungzip data = .error e →
      decompressGzip ungzip utf8 data = utf8 data) ∧
    (∀ (jsonP : String → Except String Jv) (ungzip : List ℕ → Except String String)
      (utf8 : List ℕ → String) (e : String),
      fetchAPI jsonP ungzip utf8 (.error e) = .emptyArr) ∧
    (∀ (jsonP : String → Except String Jv) (ungzip : List ℕ → Except String String)
      (utf8 : List ℕ → String) (body : List ℕ),
      fetchAPI jsonP ungzip utf8 (.ok ⟨false, body⟩) = .emptyArr) := by
  refine ⟨?_, ?_, ?_⟩
  · intro ungzip utf8 data e he
    unfold decompressGzip
    split
    · rw [he]
    · rfl
  · intro jsonP ungzip utf8 e
    rfl
  · intro jsonP ungzip utf8 body
    rfl

/-- Witness for C2 on a gzip-magic body whose decompression throws. -/
theorem C2_amended_error_paths_witness :
    decompressGzip (fun _ => .error "incorrect header check") utf8DecodeAscii
        [0x1f, 0x8b] = utf8DecodeAscii [0x1f, 0x8b] ∧
    fetchAPI jsonParse (fun _ => .error "boom") utf8DecodeAscii (.error "network")
        = .emptyArr :=
  ⟨C2_amended_error_paths.1 (fun _ => .error "incorrect header check")
      utf8DecodeAscii [0x1f, 0x8b] "incorrect header check" rfl,
    C2_amended_error_paths.2.1 jsonParse (fun _ => .error "boom")
      utf8DecodeAscii "network"⟩

/-- C2 counterexample: a successful fetch whose body is the two ASCII bytes
`{}` — valid JSON that parses to an object, not an array.  The decoder
returns that JSON object unchanged, so "returns an array" fails even though
no exception occurs anywhere. -/
theorem C2_json_object_not_array :
    fetchAPI jsonParse (fun _ => .error "not gzip") utf8DecodeAscii
      (.ok { ok := true, body := [123, 125] }) = .jsonVal (.obj []) := by
  rfl

/-! ## Claim C4 — nearest stops -/

/-- A stop sitting exactly at the reference point `(0, 0)` (coordinate text
`"0.0"`, which passes the `!== '0'` filter and parses to 0). -/
def stopAtOrigin : Stop :=
  { StopCode := "A", StopID := "1", StopDescr := "a", StopDescrEng := "a"
    StopStreet := none, StopStreetEng := none, StopHeading := "0"
    StopLat := "0.0", StopLng := "0.0" }

/-- A stop whose latitude is non-numeric text. -/
def stopBadLat : Stop :=
  { StopCode := "B", StopID := "2", StopDescr := "b", StopDescrEng := "b"
    StopStreet := none, StopStreetEng := none, StopHeading := "0"
    StopLat := "abc", StopLng := "1" }

theorem parseFloatQ_zero_text : parseFloatQ "0.0" = some 0 := by
  have h : parseFloatParts "0.0" = some (false, 0, 0, 1, 0) := by decide
  rw [parseFloatQ, h, Option.map_some']
  norm_num [partsToQ]

theorem parseFloatQ_zerocents_text : parseFloatQ "0.00" = some 0 := by
  have h : parseFloatParts "0.00" = some (false, 0, 0, 2, 0) := by decide
  rw [parseFloatQ, h, Option.map_some']
  norm_num [partsToQ]

theorem parseFloatQ_sentinel_text : parseFloatQ "999" = some 999 := by
  have h : parseFloatParts "999" = some (false, 999, 0, 0, 0) := by decide
  rw [parseFloatQ, h, Option.map_some']
  norm_num [partsToQ]

theorem parseFloatQ_abc : parseFloatQ "abc" = none := by
  have h : parseFloatParts "abc" = none := by decide
  rw [parseFloatQ, h, Option.map_none']

theorem toFixed2_zero : toFixed2 0 = "0.00" := by
  have h : ⌊(0 : ℚ) * 100 + 1 / 2⌋ = 0 := by norm_num
  unfold toFixed2
  rw [h]
  rfl

theorem stopWithDistance_origin (piQ : ℚ) (sinQ cosQ sqrtQ : ℚ → ℚ)
    (atan2Q : ℚ → ℚ → ℚ) (hsin : sinQ 0 = 0) (hs0 : sqrtQ 0 = 0)
    (hs1 : sqrtQ 1 = 1) (hat : atan2Q 0 1 = 0) :
    stopWithDistance piQ sinQ cosQ sqrtQ atan2Q 0 0 stopAtOrigin =
      { toStop := stopAtOrigin, distance := "0.00" } := by
  unfold stopWithDistance
  rw [show stopAtOrigin.StopLat = "0.0" from rfl,
    show stopAtOrigin.StopLng = "0.0" from rfl, parseFloatQ_zero_text]
  dsimp only
  have h1 : ((0 : ℚ) - 0) * piQ / 180 / 2 = 0 := by ring
  rw [h1, hsin]
  have h2 : (0 : ℚ) * 0 + cosQ (0 * piQ / 180) * cosQ (0 * piQ / 180) * 0 * 0 = 0 := by
    ring
  rw [h2, hs0]
  have h3 : (1 : ℚ) - 0 = 1 := by ring
  rw [h3, hs1, hat]
  have h4 : (6371 : ℚ) * (2 * 0) = 0 := by ring
  rw [h4, toFixed2_zero]

theorem stopWithDistance_badLat (piQ : ℚ) (sinQ cosQ sqrtQ : ℚ → ℚ)
    (atan2Q : ℚ → ℚ → ℚ) (lat lng : ℚ) :
    stopWithDistance piQ sinQ cosQ sqrtQ atan2Q lat lng stopBadLat =
      { toStop := stopBadLat, distance := "999" } := by
  unfold stopWithDistance
  rw [show stopBadLat.StopLat = "abc" from rfl, parseFloatQ_abc]

theorem sortKey_origin : sortKey { toStop := stopAtOrigin, distance := "0.00" } = 0 := by
  unfold sortKey
  rw [show ({ toStop := stopAtOrigin, distance := "0.00" } : StopD).distance
    = "0.00" from rfl, parseFloatQ_zerocents_text]
  rfl

theorem sortKey_badLat : sortKey { toStop := stopBadLat, distance := "999" } = 999 := by
  unfold sortKey
  rw [show ({ toStop := stopBadLat, distance := "999" } : StopD).distance
    = "999" from rfl, parseFloatQ_sentinel_text]
  rfl

/-- The full nearest-stops computation on the two-stop scenario: the
non-numeric stop is kept with the `'999'` sentinel and sorts last; the
zero-distance stop is first with `"0.00"`. -/
theorem closest_two_stops (piQ : ℚ) (sinQ cosQ sqrtQ : ℚ → ℚ)
    (atan2Q : ℚ → ℚ → ℚ) (hsin : sinQ 0 = 0) (hs0 : sqrtQ 0 = 0)
    (hs1 : sqrtQ 1 = 1) (hat : atan2Q 0 1 = 0) :
    getClosestStops piQ sinQ cosQ sqrtQ atan2Q [stopAtOrigin, stopBadLat] 0 0 =
      [{ toStop := stopAtOrigin, distance := "0.00" },
       { toStop := stopBadLat, distance := "999" }] := by
  unfold getClosestStops
  rw [if_neg (by decide : ¬ ([stopAtOrigin, stopBadLat].isEmpty = true))]
  dsimp only
  rw [show List.filter hasCoords [stopAtOrigin, stopBadLat]
    = [stopAtOrigin, stopBadLat] from by decide]
  rw [List.map_cons, List.map_cons, List.map_nil,
    stopWithDistance_origin piQ sinQ cosQ sqrtQ atan2Q hsin hs0 hs1 hat,
    stopWithDistance_badLat]
  simp only [sortByKey, insertByKey]
  rw [sortKey_origin, sortKey_badLat, if_pos (by norm_num : (0 : ℚ) ≤ 999)]
  rfl

/-- C4 (amended): with a stop exactly at the reference point and a stop with
non-numeric latitude, the nearest-stops computation does **not** exclude the
non-numeric stop — it assigns it the `'999'` sentinel distance and sorts it
last — while the zero-distance stop is listed first with distance `"0.00"`;
and for every stop list the result holds at most 30 stops. -/
theorem C4_amended_sentinel_and_cap (piQ : ℚ) (sinQ cosQ sqrtQ : ℚ → ℚ)
    (atan2Q : ℚ → ℚ → ℚ) (hsin : sinQ 0 = 0) (hs0 : sqrtQ 0 = 0)
    (hs1 : sqrtQ 1 = 1) (hat : atan2Q 0 1 = 0) :
    getClosestStops piQ sinQ cosQ sqrtQ atan2Q [stopAtOrigin, stopBadLat] 0 0 =
      [{ toStop := stopAtOrigin, distance := "0.00" },
       { toStop := stopBadLat, distance := "999" }] ∧
    ∀ (stops : List Stop) (lat lng : ℚ),
      (getClosestStops piQ sinQ cosQ sqrtQ atan2Q stops lat lng).length ≤ 30 := by
  refine ⟨closest_two_stops piQ sinQ cosQ sqrtQ atan2Q hsin hs0 hs1 hat, ?_⟩
  intro stops lat lng
  unfold getClosestStops
  split
  · simp
  · exact List.length_take_le 30 _

/-- Witness for C4 with trigonometric oracles satisfying the identities. -/
theorem C4_amended_sentinel_and_cap_witness :
    getClosestStops 0 (fun _ => 0) (fun _ => 1) (fun q => q) (fun _ _ => 0)
        [stopAtOrigin, stopBadLat] 0 0 =
      [{ toStop := stopAtOrigin, distance := "0.00" },
       { toStop := stopBadLat, distance := "999" }] ∧
    (getClosestStops 0 (fun _ => 0) (fun _ => 1) (fun q => q) (fun _ _ => 0)
        [] 0 0).length ≤ 30 :=
  ⟨(C4_amended_sentinel_and_cap 0 (fun _ => 0) (fun _ => 1) (fun q => q)
      (fun _ _ => 0) rfl rfl rfl rfl).1,
    (C4_amended_sentinel_and_cap 0 (fun _ => 0) (fun _ => 1) (fun q => q)
      (fun _ _ => 0) rfl rfl rfl rfl).2 [] 0 0⟩

/-- C4 counterexample: the stop with non-numeric latitude is **included** in
the nearest-stops result (with sentinel distance `'999'`), where the claim
says it is excluded.  The trigonometric oracles are instantiated with
functions agreeing with the real ones at the points used (`sin 0 = 0`,
`sqrt 0 = 0`, `sqrt 1 = 1`, `atan2 0 1 = 0`); the membership itself does not
depend on any distance value. -/
theorem C4_nonnumeric_stop_included :
    ({ toStop := stopBadLat, distance := "999" } : StopD) ∈
      getClosestStops 0 (fun _ => 0) (fun _ => 1) (fun q => q) (fun _ _ => 0)
        [stopAtOrigin, stopBadLat] 0 0 := by
  rw [closest_two_stops 0 (fun _ => 0) (fun _ => 1) (fun q => q) (fun _ _ => 0)
    rfl rfl rfl rfl]
  simp

end AthensBuses
